import Mathlib

/-!
Shallow embedding of the sales-dashboard pipeline in `src/app.py`.

The program loads a spreadsheet into a dataframe `df`, binds four roles
(category, sales, date, satisfaction) to column names (lines 42-64), coerces
the sales-bound column to numeric and the date-bound column to datetime in
place (lines 71-74), drops rows missing any of the three key columns
(line 77), and renders three aggregate tabs:
  * tab 1 (lines 86-118): group by category, sum sales, sort descending;
  * tab 2 (lines 124-174): group by calendar date, sum sales, sort ascending,
    with a first-vs-last trend classification;
  * tab 3 (lines 180-211): value counts of the satisfaction column of `df`
    (which was mutated in place by the cleaning), sorted by rating.

Cell values are modelled by `Value`; rows by association lists from column
name to value; a dataframe by `List Row`.  The pandas coercions
`pd.to_numeric(-, errors := coerce)` and `pd.to_datetime(-, errors := coerce)`
are modelled per value by `toNumeric` and `toDatetime`: numbers pass through,
datetimes convert to their epoch offset (resp. pass through), strings are
parsed (integer literals, resp. ISO `YYYY-MM-DD` dates under a monotone
calendar encoding), and anything unparseable becomes `missing` (pandas NaN /
NaT).  `groupby(k).sum()` is modelled as fibre sums over the deduplicated
list of keys, and pandas sorts by `List.insertionSort` (tie order in
`sort_values` is unspecified by the spec).
-/

/-- A cell value: missing (NaN/NaT/None), text, a number, or a datetime
(epoch offset in seconds). -/
inductive Value where
  | missing : Value
  | str : String → Value
  | num : Int → Value
  | dt : Int → Value
deriving DecidableEq, Repr

/-- `pd.isna` on a single value. -/
def isMissing : Value → Bool
  | .missing => true
  | _ => false

/-- Accumulate decimal digits; fails on a non-digit character. -/
def parseNatAux : Nat → List Char → Option Nat
  | acc, [] => some acc
  | acc, c :: cs => if c.isDigit then parseNatAux (acc * 10 + (c.toNat - 48)) cs else none

/-- Parse a nonempty all-digit character list as a natural number. -/
def parseDigits : List Char → Option Nat
  | [] => none
  | cs => parseNatAux 0 cs

/-- Parse an optionally negated integer literal. -/
def parseInt : String → Option Int :=
  fun s =>
    match s.data with
    | '-' :: cs => (parseDigits cs).map (fun n => -(n : Int))
    | cs => (parseDigits cs).map (fun n => (n : Int))

/-- Monotone encoding of a calendar date as a day count (372 slots per year,
31 per month), used to model date ordering and day granularity. -/
def dateEncode (y m d : Nat) : Int :=
  ((y * 372 + (m - 1) * 31 + (d - 1) : Nat) : Int)

/-- Parse an ISO `YYYY-MM-DD` string to a day count.  Models the date formats
pandas `to_datetime` accepts for the string cells of a spreadsheet column. -/
def parseDate : String → Option Int :=
  fun s =>
    match s.data with
    | [y1, y2, y3, y4, c1, m1, m2, c2, d1, d2] =>
      if c1 = '-' && c2 = '-' then
        match parseDigits [y1, y2, y3, y4], parseDigits [m1, m2], parseDigits [d1, d2] with
        | some y, some m, some d =>
          if 1 ≤ m && m ≤ 12 && 1 ≤ d && d ≤ 31 then some (dateEncode y m d) else none
        | _, _, _ => none
      else none
    | _ => none

/-- `pd.to_numeric(v, errors := coerce)` on one value: numbers pass through,
datetimes become their integer epoch offset, parseable numeric strings are
parsed, everything else becomes missing.  Total: never raises. -/
def toNumeric : Value → Value
  | .num n => .num n
  | .dt t => .num t
  | .str s =>
    match parseInt s with
    | some n => .num n
    | none => .missing
  | .missing => .missing

/-- `pd.to_datetime(v, errors := coerce)` on one value: datetimes pass
through, numbers are read as epoch offsets, parseable date strings are
parsed (at midnight), everything else becomes missing.  Total: never
raises. -/
def toDatetime : Value → Value
  | .dt t => .dt t
  | .num n => .dt n
  | .str s =>
    match parseDate s with
    | some d => .dt (d * 86400)
    | none => .missing
  | .missing => .missing

/-- A dataframe row: an association list from column name to cell value. -/
abbrev Row := List (String × Value)

/-- `df[c]` for one row: the value of the first entry for column `c`,
missing when the column is absent. -/
def getCol : Row → String → Value
  | [], _ => .missing
  | (c, v) :: r, c0 => if c0 = c then v else getCol r c0

/-- `df[c] = f(df[c])` for one row: apply `f` to every entry of column `c`,
leaving the other columns untouched. -/
def setColWith (c : String) (f : Value → Value) : Row → Row :=
  List.map (fun p => if p.1 = c then (p.1, f p.2) else p)

/-- Lines 71-74 of `src/app.py` on one row: first coerce the sales-bound
column to numeric, then the date-bound column to datetime (in this order;
the two in-place column assignments are sequential). -/
def coerceRow (salesCol dateCol : String) (r : Row) : Row :=
  setColWith dateCol toDatetime (setColWith salesCol toNumeric r)

/-- Lines 71-74 applied to the whole dataframe. -/
def coerceRows (salesCol dateCol : String) (rows : List Row) : List Row :=
  rows.map (coerceRow salesCol dateCol)

/-- `df.dropna(subset)`: keep the rows whose value is non-missing in every
column of `subset`. -/
def dropna (subset : List String) (rows : List Row) : List Row :=
  rows.filter (fun r => subset.all (fun c => !(isMissing (getCol r c))))

/-- Line 77: `df_clean = df.dropna(subset=[category_col, sales_col, date_col])`,
applied after the in-place coercions of lines 71-74. -/
def df_clean (categoryCol salesCol dateCol : String) (rows : List Row) : List Row :=
  dropna [categoryCol, salesCol, dateCol] (coerceRows salesCol dateCol rows)

/-- Lines 38-39: `cols.index(col_name) if col_name in cols else 0`. -/
def default_index (colName : String) (cols : List String) : Nat :=
  if colName ∈ cols then cols.indexOf colName else 0

/-- The column a selectbox preselects: `options[default_index(name, options)]`
(lines 42-64). -/
def defaultBinding (colName : String) (cols : List String) : Option String :=
  cols.get? (default_index colName cols)

/-- The numeric content of a cell (0 for non-numbers; in the pipelines below
it is only read on `num` cells). -/
def numVal : Value → Int
  | .num n => n
  | _ => 0

/-- The sales amount of a row: the numeric content of its sales-bound cell. -/
def salesOf (salesCol : String) (r : Row) : Int :=
  numVal (getCol r salesCol)

/-- `rows.groupby(key)[...].sum()`: one pair per distinct key (in first-seen
order, as produced before pandas sorts), whose second component is the sum of
`f` over the rows of that fibre. -/
def groupSumBy {α : Type} [DecidableEq α] (key : Row → α) (f : Row → Int)
    (rows : List Row) : List (α × Int) :=
  ((rows.map key).dedup).map
    (fun k => (k, ((rows.filter (fun r => key r = k)).map f).sum))

/-- `sort_values(ascending := False)`: order pairs by descending second
component (tie order unspecified in the spec). -/
def descBySnd {α : Type} : (α × Int) → (α × Int) → Prop :=
  fun a b => b.2 ≤ a.2

instance {α : Type} : DecidableRel (@descBySnd α) :=
  fun a b => inferInstanceAs (Decidable (b.2 ≤ a.2))

/-- `sort_index()` on an integer-keyed series: order pairs ascending by key. -/
def ascByFst {α : Type} : (Int × α) → (Int × α) → Prop :=
  fun a b => a.1 ≤ b.1

instance {α : Type} : DecidableRel (@ascByFst α) :=
  fun a b => inferInstanceAs (Decidable (a.1 ≤ b.1))

/-- Lines 86-90: `df_clean.groupby(category_col)[sales_col].sum()
.sort_values(ascending=False)`. -/
def category_sales (categoryCol salesCol : String) (rows : List Row) :
    List (Value × Int) :=
  List.insertionSort descBySnd
    (groupSumBy (fun r => getCol r categoryCol) (salesOf salesCol) rows)

/-- Line 124: `time_df = df_clean.dropna(subset=[date_col, sales_col])`. -/
def time_df (dateCol salesCol : String) (clean : List Row) : List Row :=
  dropna [dateCol, salesCol] clean

/-- `.dt.date` on one cell: truncate a datetime to its calendar day
(floor of the epoch offset by the length of a day). -/
def dayOf : Value → Int
  | .dt t => t.fdiv 86400
  | _ => 0

/-- Lines 129-133: `time_df.groupby(time_df[date_col].dt.date)[sales_col]
.sum().sort_index()`. -/
def daily_sales (dateCol salesCol : String) (rows : List Row) :
    List (Int × Int) :=
  List.insertionSort ascByFst
    (groupSumBy (fun r => dayOf (getCol r dateCol)) (salesOf salesCol) rows)

/-- The three-way trend wording of lines 152-157 (`stayed about the same`
is the spec's `unchanged`). -/
inductive Trend where
  | increased : Trend
  | decreased : Trend
  | unchanged : Trend
deriving DecidableEq, Repr

/-- Lines 149-157: only when the daily summary has more than one entry,
classify the trend by comparing the last daily total with the first. -/
def trendOf (l : List (Int × Int)) : Option Trend :=
  if 1 < l.length then
    some
      (if (l.getLastD (0, 0)).2 > (l.headD (0, 0)).2 then .increased
       else if (l.getLastD (0, 0)).2 < (l.headD (0, 0)).2 then .decreased
       else .unchanged)
  else none

/-- `Series.idxmax` with its value: the first pair whose second component is
maximal, `none` on an empty series (where pandas raises `ValueError`). -/
def argmaxPair {α : Type} : List (α × Int) → Option (α × Int)
  | [] => none
  | p :: rest => some (rest.foldl (fun best q => if best.2 < q.2 then q else best) p)

/-- What tab 1 renders: the interpretation with the top category (lines
106-116), or the `no valid data` warning (line 118). -/
inductive Tab1Result where
  | noData : Tab1Result
  | rendered : Value → Int → Tab1Result
deriving DecidableEq, Repr

/-- Lines 106-118: if `category_sales` is nonempty render its `idxmax` and
`max`, else warn. -/
def tab1 (categoryCol salesCol : String) (clean : List Row) : Tab1Result :=
  let cs := category_sales categoryCol salesCol clean
  if cs.isEmpty then .noData
  else
    match argmaxPair cs with
    | some (k, v) => .rendered k v
    | none => .noData

/-- What tab 2 renders: the warning of line 127, the single-point message of
lines 168-174, or the trend interpretation of lines 159-166. -/
inductive Tab2Result where
  | noData : Tab2Result
  | singlePoint : Tab2Result
  | trended : Trend → Tab2Result
deriving DecidableEq, Repr

/-- Lines 124-174: warn when `time_df` is empty; otherwise compute
`daily_sales` and either render the trend (more than one entry) or the
single-point message. -/
def tab2 (dateCol salesCol : String) (clean : List Row) : Tab2Result :=
  let tdf := time_df dateCol salesCol clean
  if tdf.isEmpty then .noData
  else
    match trendOf (daily_sales dateCol salesCol tdf) with
    | some t => .trended t
    | none => .singlePoint

/-- The satisfaction-bound column of a dataframe, as a series of values. -/
def satValues (satisfactionCol : String) (rows : List Row) : List Value :=
  rows.map (fun r => getCol r satisfactionCol)

/-- `Series.dropna()`: drop the missing values of a series. -/
def seriesDropna (vs : List Value) : List Value :=
  vs.filter (fun v => !(isMissing v))

/-- The ratings that survive tab 3's pipeline (lines 180-185): drop missing
values, coerce to numeric, drop the values that failed coercion; the
survivors are numeric, read off their integer content. -/
def ratingsOf (satisfactionCol : String) (rows : List Row) : List Int :=
  (seriesDropna ((seriesDropna (satValues satisfactionCol rows)).map toNumeric)).map numVal

/-- `Series.value_counts()` before sorting: one pair per distinct value with
its number of occurrences. -/
def value_counts (xs : List Int) : List (Int × Nat) :=
  (xs.dedup).map (fun v => (v, xs.count v))

/-- Line 186: `sat_series.value_counts().sort_index()`. -/
def rating_counts (satisfactionCol : String) (rows : List Row) : List (Int × Nat) :=
  List.insertionSort ascByFst (value_counts (ratingsOf satisfactionCol rows))

/-- `Series.idxmax` for the count series of tab 3, with its count. -/
def argmaxCount : List (Int × Nat) → Option (Int × Nat)
  | [] => none
  | p :: rest => some (rest.foldl (fun best q => if best.2 < q.2 then q else best) p)

/-- What tab 3 does: warn (line 183), render the modal rating (lines
201-210), or raise `ValueError` from `idxmax()` on an empty count series
(line 201). -/
inductive Tab3Result where
  | noData : Tab3Result
  | rendered : Int → Nat → Tab3Result
  | raisedValueError : Tab3Result
deriving DecidableEq, Repr

/-- Lines 180-210: `sat_series = df[satisfaction_col].dropna()`; warn when
empty; else coerce to numeric, drop failures, take value counts sorted by
rating, and call `idxmax()` / `max()` on the count series — which raises
when that series is empty. -/
def tab3 (satisfactionCol : String) (dfRows : List Row) : Tab3Result :=
  let s0 := seriesDropna (satValues satisfactionCol dfRows)
  if s0.isEmpty then .noData
  else
    match argmaxCount (rating_counts satisfactionCol dfRows) with
    | some (k, c) => .rendered k c
    | none => .raisedValueError

/-- Tab 3 as the program runs it: on the dataframe `df` already mutated in
place by the cleaning of lines 71-74. -/
def tab3_program (salesCol dateCol satisfactionCol : String) (rows : List Row) :
    Tab3Result :=
  tab3 satisfactionCol (coerceRows salesCol dateCol rows)

/-- Modelled from the spec (section 4.4, `ratingDistribution`): the rating
distribution of the *original, uncleaned* dataset's satisfaction column —
the missing part being a program point that still holds the unmutated
dataframe, since `src/app.py` overwrites `df` in place.  Same per-value
pipeline, applied to the raw rows. -/
def ratingDistribution_spec (satisfactionCol : String) (rows : List Row) :
    List (Int × Nat) :=
  rating_counts satisfactionCol rows

/-- The number of numeric, non-missing satisfaction values of the raw
dataset (section 8 of the spec): the values that survive numeric coercion. -/
def numericCount (satisfactionCol : String) (rows : List Row) : Nat :=
  ((satValues satisfactionCol rows).filter
    (fun v => !(isMissing (toNumeric v)))).length

example :
    category_sales "Category" "Sales"
      [[("Category", Value.str "Juice"), ("Sales", Value.num 10), ("Date Ordered", Value.dt 0)],
       [("Category", Value.str "Smoothie"), ("Sales", Value.num 20), ("Date Ordered", Value.dt 0)],
       [("Category", Value.str "Juice"), ("Sales", Value.num 5), ("Date Ordered", Value.dt 86400)]] =
    [(Value.str "Smoothie", 20), (Value.str "Juice", 15)] := by decide

example :
    daily_sales "Date Ordered" "Sales"
      [[("Category", Value.str "Juice"), ("Sales", Value.num 10), ("Date Ordered", Value.dt 0)],
       [("Category", Value.str "Smoothie"), ("Sales", Value.num 20), ("Date Ordered", Value.dt 0)],
       [("Category", Value.str "Juice"), ("Sales", Value.num 5), ("Date Ordered", Value.dt 86400)]] =
    [(0, 30), (1, 5)] := by decide

example :
    rating_counts "R"
      [[("R", Value.num 5)], [("R", Value.num 5)], [("R", Value.str "bad")],
       [("R", Value.num 3)], [("R", Value.missing)], [("R", Value.num 5)]] =
    [(3, 1), (5, 3)] := by decide

/-! ### Helper lemmas on column access and update -/

lemma setColWith_cons (c a : String) (v : Value) (f : Value → Value) (r : Row) :
    setColWith c f ((a, v) :: r)
      = (if a = c then (a, f v) else (a, v)) :: setColWith c f r := by
  unfold setColWith
  rw [List.map_cons]

lemma getCol_cons (a c0 : String) (v : Value) (r : Row) :
    getCol ((a, v) :: r) c0 = if c0 = a then v else getCol r c0 := rfl

lemma getCol_setColWith_ne (c c0 : String) (f : Value → Value) (r : Row)
    (h : c0 ≠ c) : getCol (setColWith c f r) c0 = getCol r c0 := by
  induction r with
  | nil => rfl
  | cons p r ih =>
    obtain ⟨pc, pv⟩ := p
    rw [setColWith_cons]
    by_cases hpc : pc = c
    · rw [if_pos hpc, getCol_cons, getCol_cons, if_neg (hpc ▸ h), ih,
        if_neg (hpc ▸ h)]
    · rw [if_neg hpc, getCol_cons, getCol_cons]
      by_cases hc0 : c0 = pc
      · rw [if_pos hc0, if_pos hc0]
      · rw [if_neg hc0, if_neg hc0, ih]

lemma getCol_setColWith_self (c : String) (f : Value → Value) (r : Row)
    (hf : f .missing = .missing) :
    getCol (setColWith c f r) c = f (getCol r c) := by
  induction r with
  | nil => exact hf.symm
  | cons p r ih =>
    obtain ⟨pc, pv⟩ := p
    rw [setColWith_cons]
    by_cases hpc : pc = c
    · rw [if_pos hpc, getCol_cons, getCol_cons, if_pos (Eq.symm hpc),
        if_pos (Eq.symm hpc)]
    · have hcpc : ¬ c = pc := fun h => hpc (Eq.symm h)
      rw [if_neg hpc, getCol_cons, getCol_cons, if_neg hcpc, if_neg hcpc, ih]

lemma toNumeric_missing : toNumeric .missing = .missing := rfl

lemma toDatetime_missing : toDatetime .missing = .missing := rfl

lemma getCol_coerceRow_other (salesCol dateCol c : String) (r : Row)
    (hs : c ≠ salesCol) (hd : c ≠ dateCol) :
    getCol (coerceRow salesCol dateCol r) c = getCol r c := by
  unfold coerceRow
  rw [getCol_setColWith_ne _ _ _ _ hd, getCol_setColWith_ne _ _ _ _ hs]

lemma getCol_coerceRow_sales (salesCol dateCol : String) (r : Row)
    (hsd : salesCol ≠ dateCol) :
    getCol (coerceRow salesCol dateCol r) salesCol = toNumeric (getCol r salesCol) := by
  unfold coerceRow
  rw [getCol_setColWith_ne _ _ _ _ hsd, getCol_setColWith_self _ _ _ toNumeric_missing]

lemma getCol_coerceRow_date (salesCol dateCol : String) (r : Row)
    (hsd : salesCol ≠ dateCol) :
    getCol (coerceRow salesCol dateCol r) dateCol = toDatetime (getCol r dateCol) := by
  unfold coerceRow
  rw [getCol_setColWith_self _ _ _ toDatetime_missing,
    getCol_setColWith_ne _ _ _ _ (fun h => hsd h.symm)]

/-! ### The partition property of `groupby(-).sum()` -/

lemma sum_fiberwise {α β : Type} [DecidableEq α] (key : β → α) (f : β → Int) :
    ∀ (ks : List α) (rows : List β), ks.Nodup → (∀ r ∈ rows, key r ∈ ks) →
      (ks.map (fun k => ((rows.filter (fun r => key r = k)).map f).sum)).sum
        = (rows.map f).sum := by
  intro ks
  induction ks with
  | nil =>
    intro rows _ hcover
    have : rows = [] := by
      cases rows with
      | nil => rfl
      | cons r rs => exact absurd (hcover r (List.mem_cons_self r rs)) (by simp)
    simp [this]
  | cons k ks ih =>
    intro rows hnd hcover
    have hknotin : k ∉ ks := (List.nodup_cons.mp hnd).1
    have hndks : ks.Nodup := (List.nodup_cons.mp hnd).2
    set rest := rows.filter (fun r => !(decide (key r = k))) with hrest
    have hcover2 : ∀ r ∈ rest, key r ∈ ks := by
      intro r hr
      rw [hrest, List.mem_filter] at hr
      have hne : key r ≠ k := by simpa using hr.2
      have := hcover r hr.1
      simp only [List.mem_cons] at this
      exact this.resolve_left hne
    have hfib : ∀ k0 ∈ ks,
        rest.filter (fun r => key r = k0) = rows.filter (fun r => key r = k0) := by
      intro k0 hk0
      have hk0ne : k0 ≠ k := fun hk0k => hknotin (hk0k ▸ hk0)
      rw [hrest, List.filter_filter]
      apply List.filter_congr
      intro r _
      by_cases h : key r = k0
      · have hnk : ¬ key r = k := fun hk => hk0ne (h.symm.trans hk)
        simp [h, hnk, hk0ne]
      · simp [h]
    have hsplit : (rows.map f).sum
        = ((rows.filter (fun r => key r = k)).map f).sum + ((rest.map f).sum) := by
      have hperm : (rows.filter (fun r => decide (key r = k))
          ++ rows.filter (fun r => !(decide (key r = k)))).Perm rows :=
        List.filter_append_perm _ rows
      have := (hperm.map f).sum_eq
      rw [← this, List.map_append, List.sum_append, hrest]
    have htail : (ks.map (fun k0 => ((rows.filter (fun r => key r = k0)).map f).sum))
        = (ks.map (fun k0 => ((rest.filter (fun r => key r = k0)).map f).sum)) := by
      apply List.map_congr_left
      intro k0 hk0
      rw [hfib k0 hk0]
    rw [List.map_cons, List.sum_cons, htail, ih rest hndks hcover2, hsplit]

lemma groupSumBy_snd_sum {α : Type} [DecidableEq α] (key : Row → α) (f : Row → Int)
    (rows : List Row) :
    ((groupSumBy key f rows).map Prod.snd).sum = (rows.map f).sum := by
  unfold groupSumBy
  rw [List.map_map]
  have : (Prod.snd ∘ fun k => (k, ((rows.filter (fun r => key r = k)).map f).sum))
      = fun k => ((rows.filter (fun r => key r = k)).map f).sum := rfl
  rw [this]
  exact sum_fiberwise key f _ rows ((rows.map key).nodup_dedup)
    (fun r hr => List.mem_dedup.mpr (List.mem_map_of_mem key hr))

lemma groupSumBy_fst {α : Type} [DecidableEq α] (key : Row → α) (f : Row → Int)
    (rows : List Row) :
    (groupSumBy key f rows).map Prod.fst = (rows.map key).dedup := by
  unfold groupSumBy
  rw [List.map_map]
  have : (Prod.fst ∘ fun k =>
      (k, ((rows.filter (fun r => key r = k)).map f).sum)) = @id α := rfl
  rw [this, List.map_id]

lemma groupSumBy_fst_nodup {α : Type} [DecidableEq α] (key : Row → α) (f : Row → Int)
    (rows : List Row) : ((groupSumBy key f rows).map Prod.fst).Nodup := by
  rw [groupSumBy_fst]
  exact (rows.map key).nodup_dedup

/-! ### Order facts for the two sort relations -/

instance {α : Type} : IsTotal (α × Int) descBySnd :=
  ⟨fun a b => le_total b.2 a.2⟩

instance {α : Type} : IsTrans (α × Int) descBySnd :=
  ⟨fun _ _ _ h1 h2 => le_trans h2 h1⟩

instance {α : Type} : IsTotal (Int × α) ascByFst :=
  ⟨fun a b => le_total a.1 b.1⟩

instance {α : Type} : IsTrans (Int × α) ascByFst :=
  ⟨fun _ _ _ h1 h2 => le_trans h1 h2⟩

/-! ### Aggregate-level lemmas -/

lemma category_sales_sorted (categoryCol salesCol : String) (rows : List Row) :
    List.Sorted descBySnd (category_sales categoryCol salesCol rows) :=
  List.sorted_insertionSort descBySnd _

lemma category_sales_snd_sum (categoryCol salesCol : String) (rows : List Row) :
    ((category_sales categoryCol salesCol rows).map Prod.snd).sum
      = (rows.map (salesOf salesCol)).sum := by
  unfold category_sales
  rw [((List.perm_insertionSort descBySnd _).map Prod.snd).sum_eq]
  exact groupSumBy_snd_sum _ _ rows

lemma daily_sales_sorted (dateCol salesCol : String) (rows : List Row) :
    List.Sorted ascByFst (daily_sales dateCol salesCol rows) :=
  List.sorted_insertionSort ascByFst _

lemma daily_sales_snd_sum (dateCol salesCol : String) (rows : List Row) :
    ((daily_sales dateCol salesCol rows).map Prod.snd).sum
      = (rows.map (salesOf salesCol)).sum := by
  unfold daily_sales
  rw [((List.perm_insertionSort ascByFst _).map Prod.snd).sum_eq]
  exact groupSumBy_snd_sum _ _ rows

lemma daily_sales_fst_nodup (dateCol salesCol : String) (rows : List Row) :
    ((daily_sales dateCol salesCol rows).map Prod.fst).Nodup := by
  unfold daily_sales
  exact ((List.perm_insertionSort ascByFst _).symm.map Prod.fst).nodup
    (groupSumBy_fst_nodup _ _ rows)

/-! ### `dropna` lemmas -/

lemma mem_dropna (subset : List String) (rows : List Row) (r : Row) :
    r ∈ dropna subset rows
      ↔ r ∈ rows ∧ ∀ c ∈ subset, isMissing (getCol r c) = false := by
  unfold dropna
  rw [List.mem_filter, List.all_eq_true]
  simp

lemma dropna_of_forall (subset : List String) (rows : List Row)
    (h : ∀ r ∈ rows, ∀ c ∈ subset, isMissing (getCol r c) = false) :
    dropna subset rows = rows := by
  unfold dropna
  rw [List.filter_eq_self]
  intro r hr
  rw [List.all_eq_true]
  intro c hc
  simp [h r hr c hc]

lemma mem_df_clean (categoryCol salesCol dateCol : String) (rows : List Row) (r : Row) :
    r ∈ df_clean categoryCol salesCol dateCol rows
      ↔ r ∈ coerceRows salesCol dateCol rows
          ∧ isMissing (getCol r categoryCol) = false
          ∧ isMissing (getCol r salesCol) = false
          ∧ isMissing (getCol r dateCol) = false := by
  unfold df_clean
  rw [mem_dropna]
  constructor
  · rintro ⟨h1, h2⟩
    exact ⟨h1, h2 categoryCol (by simp), h2 salesCol (by simp), h2 dateCol (by simp)⟩
  · rintro ⟨h1, h2, h3, h4⟩
    refine ⟨h1, ?_⟩
    intro c hc
    simp only [List.mem_cons, List.mem_singleton] at hc
    rcases hc with hc | hc | hc | hc
    · exact hc ▸ h2
    · exact hc ▸ h3
    · exact hc ▸ h4
    · exact absurd hc (List.not_mem_nil c)

lemma time_df_eq_df_clean (categoryCol salesCol dateCol : String) (rows : List Row) :
    time_df dateCol salesCol (df_clean categoryCol salesCol dateCol rows)
      = df_clean categoryCol salesCol dateCol rows := by
  unfold time_df
  apply dropna_of_forall
  intro r hr c hc
  rw [mem_df_clean] at hr
  simp only [List.mem_cons, List.mem_singleton] at hc
  rcases hc with hc | hc | hc
  · exact hc ▸ hr.2.2.2
  · exact hc ▸ hr.2.2.1
  · exact absurd hc (List.not_mem_nil c)

/-! ### Rating-pipeline lemmas -/

lemma value_counts_snd_sum (xs : List Int) :
    ((value_counts xs).map Prod.snd).sum = xs.length := by
  unfold value_counts
  rw [List.map_map]
  have : (Prod.snd ∘ fun v => (v, xs.count v)) = fun v => xs.count v := rfl
  rw [this]
  exact List.sum_map_count_dedup_eq_length xs

lemma rating_counts_sorted (satisfactionCol : String) (rows : List Row) :
    List.Sorted ascByFst (rating_counts satisfactionCol rows) :=
  List.sorted_insertionSort ascByFst _

lemma ratingsOf_eq_of_satValues_eq (a b : String) (rows1 rows2 : List Row)
    (h : satValues a rows1 = satValues b rows2) :
    ratingsOf a rows1 = ratingsOf b rows2 := by
  unfold ratingsOf
  rw [h]

lemma rating_counts_eq_of_satValues_eq (a b : String) (rows1 rows2 : List Row)
    (h : satValues a rows1 = satValues b rows2) :
    rating_counts a rows1 = rating_counts b rows2 := by
  unfold rating_counts
  rw [ratingsOf_eq_of_satValues_eq a b rows1 rows2 h]

lemma ratingsOf_length (satisfactionCol : String) (rows : List Row) :
    (ratingsOf satisfactionCol rows).length = numericCount satisfactionCol rows := by
  unfold ratingsOf numericCount
  rw [List.length_map]
  unfold seriesDropna
  rw [List.filter_map, List.length_map, List.filter_filter]
  congr 1
  apply List.filter_congr
  intro v _
  cases v <;> simp [toNumeric, isMissing, Function.comp]

lemma satValues_coerceRows (salesCol dateCol satisfactionCol : String)
    (rows : List Row) (hs : satisfactionCol ≠ salesCol) (hd : satisfactionCol ≠ dateCol) :
    satValues satisfactionCol (coerceRows salesCol dateCol rows)
      = satValues satisfactionCol rows := by
  unfold satValues coerceRows
  rw [List.map_map]
  apply List.map_congr_left
  intro r _
  exact getCol_coerceRow_other salesCol dateCol satisfactionCol r hs hd

lemma rating_counts_snd_sum (satisfactionCol : String) (rows : List Row) :
    ((rating_counts satisfactionCol rows).map Prod.snd).sum
      = numericCount satisfactionCol rows := by
  unfold rating_counts
  rw [((List.perm_insertionSort ascByFst _).map Prod.snd).sum_eq,
    value_counts_snd_sum, ratingsOf_length]

/-! ### Single-date lemmas for the trend special case -/

lemma dedup_const {α : Type} [DecidableEq α] (l : List α) (d : α)
    (hne : l ≠ []) (h : ∀ x ∈ l, x = d) : l.dedup = [d] := by
  induction l with
  | nil => exact absurd rfl hne
  | cons a t ih =>
    have ha : a = d := h a (List.mem_cons_self a t)
    cases t with
    | nil =>
      rw [List.dedup_cons_of_not_mem (List.not_mem_nil a), List.dedup_nil, ha]
    | cons b t2 =>
      have h2 : ∀ x ∈ b :: t2, x = d := fun x hx => h x (List.mem_cons_of_mem a hx)
      have hmem : a ∈ b :: t2 := by
        rw [ha, ← h2 b (List.mem_cons_self b t2)]
        exact List.mem_cons_self b t2
      rw [List.dedup_cons_of_mem hmem]
      exact ih (by simp) h2

lemma daily_sales_length_one (dateCol salesCol : String) (rows : List Row) (d : Int)
    (hne : rows ≠ []) (h : ∀ r ∈ rows, dayOf (getCol r dateCol) = d) :
    (daily_sales dateCol salesCol rows).length = 1 := by
  unfold daily_sales
  rw [(List.perm_insertionSort ascByFst _).length_eq]
  unfold groupSumBy
  rw [List.length_map]
  have hkeys : (rows.map (fun r => dayOf (getCol r dateCol))).dedup = [d] := by
    apply dedup_const
    · simp [hne]
    · intro x hx
      rw [List.mem_map] at hx
      obtain ⟨r, hr, hrx⟩ := hx
      rw [← hrx]
      exact h r hr
  rw [hkeys]
  rfl

lemma trendOf_of_length_le_one (l : List (Int × Int)) (h : ¬ 1 < l.length) :
    trendOf l = none := by
  unfold trendOf
  rw [if_neg h]

/-! ### Claim theorems -/

/-- C1: for every dataset and role binding, the category summary of the
cleaned row set is sorted descending by summed total, and the sum of all
category totals equals the sum of the sales values over the whole cleaned
row set (partition property). -/
theorem C1_categorySales_sorted_partition
    (categoryCol salesCol dateCol : String) (rows : List Row) :
    List.Sorted descBySnd
      (category_sales categoryCol salesCol (df_clean categoryCol salesCol dateCol rows))
    ∧ ((category_sales categoryCol salesCol
          (df_clean categoryCol salesCol dateCol rows)).map Prod.snd).sum
        = ((df_clean categoryCol salesCol dateCol rows).map (salesOf salesCol)).sum :=
  ⟨category_sales_sorted _ _ _, category_sales_snd_sum _ _ _⟩

/-- C2: for every dataset and role binding, the daily summary (as the program
computes it, from `time_df`) is sorted ascending by calendar date, contains
each date at most once, and its totals sum to the sum of the sales values
over the whole cleaned row set. -/
theorem C2_dailySales_sorted_unique_partition
    (categoryCol salesCol dateCol : String) (rows : List Row) :
    List.Sorted ascByFst
      (daily_sales dateCol salesCol
        (time_df dateCol salesCol (df_clean categoryCol salesCol dateCol rows)))
    ∧ ((daily_sales dateCol salesCol
          (time_df dateCol salesCol (df_clean categoryCol salesCol dateCol rows))).map
        Prod.fst).Nodup
    ∧ ((daily_sales dateCol salesCol
          (time_df dateCol salesCol (df_clean categoryCol salesCol dateCol rows))).map
        Prod.snd).sum
        = ((df_clean categoryCol salesCol dateCol rows).map (salesOf salesCol)).sum := by
  rw [time_df_eq_df_clean]
  exact ⟨daily_sales_sorted _ _ _, daily_sales_fst_nodup _ _ _, daily_sales_snd_sum _ _ _⟩

/-- C3: a row of the dataset is (as its coerced image) in the cleaned row set
iff its category-, sales- and date-bound values are all non-missing after
coercion; consequently every row of the cleaned row set has non-missing
category, sales and date values. -/
theorem C3_clean_filter_characterisation
    (categoryCol salesCol dateCol : String) (rows : List Row) (r0 : Row)
    (h : r0 ∈ rows) :
    (coerceRow salesCol dateCol r0 ∈ df_clean categoryCol salesCol dateCol rows
      ↔ isMissing (getCol (coerceRow salesCol dateCol r0) categoryCol) = false
        ∧ isMissing (getCol (coerceRow salesCol dateCol r0) salesCol) = false
        ∧ isMissing (getCol (coerceRow salesCol dateCol r0) dateCol) = false)
    ∧ ∀ r ∈ df_clean categoryCol salesCol dateCol rows,
        isMissing (getCol r categoryCol) = false
        ∧ isMissing (getCol r salesCol) = false
        ∧ isMissing (getCol r dateCol) = false := by
  constructor
  · rw [mem_df_clean]
    constructor
    · rintro ⟨_, h2⟩
      exact h2
    · rintro ⟨h2, h3, h4⟩
      exact ⟨List.mem_map_of_mem (coerceRow salesCol dateCol) h, h2, h3, h4⟩
  · intro r hr
    exact ((mem_df_clean categoryCol salesCol dateCol rows r).mp hr).2

/-- C3 witness at a concrete one-row dataset. -/
theorem C3_clean_filter_characterisation_witness :
    [("C", Value.str "Juice"), ("S", Value.num 10), ("D", Value.dt 0)] ∈
      ([[("C", Value.str "Juice"), ("S", Value.num 10), ("D", Value.dt 0)]] : List Row)
    ∧ (coerceRow "S" "D" [("C", Value.str "Juice"), ("S", Value.num 10), ("D", Value.dt 0)]
        ∈ df_clean "C" "S" "D"
            [[("C", Value.str "Juice"), ("S", Value.num 10), ("D", Value.dt 0)]]
      ↔ isMissing (getCol (coerceRow "S" "D"
            [("C", Value.str "Juice"), ("S", Value.num 10), ("D", Value.dt 0)]) "C") = false
        ∧ isMissing (getCol (coerceRow "S" "D"
            [("C", Value.str "Juice"), ("S", Value.num 10), ("D", Value.dt 0)]) "S") = false
        ∧ isMissing (getCol (coerceRow "S" "D"
            [("C", Value.str "Juice"), ("S", Value.num 10), ("D", Value.dt 0)]) "D") = false) :=
  ⟨by decide,
    (C3_clean_filter_characterisation "C" "S" "D"
      [[("C", Value.str "Juice"), ("S", Value.num 10), ("D", Value.dt 0)]]
      [("C", Value.str "Juice"), ("S", Value.num 10), ("D", Value.dt 0)] (by decide)).1⟩

/-- C9: re-applying the missing-value filter on the date- and sales-bound
columns to the already-cleaned row set is a no-op, so the daily-sales
pipeline with the extra filter equals the pipeline without it. -/
theorem C9_time_df_noop (categoryCol salesCol dateCol : String) (rows : List Row) :
    time_df dateCol salesCol (df_clean categoryCol salesCol dateCol rows)
      = df_clean categoryCol salesCol dateCol rows
    ∧ daily_sales dateCol salesCol
        (time_df dateCol salesCol (df_clean categoryCol salesCol dateCol rows))
      = daily_sales dateCol salesCol (df_clean categoryCol salesCol dateCol rows) :=
  ⟨time_df_eq_df_clean categoryCol salesCol dateCol rows,
    by rw [time_df_eq_df_clean]⟩

/-- C10: cleaning rewrites only the sales- and date-bound columns (every
other column of every surviving row is unchanged), and the surviving rows
are the coerced images of a sublist of the original rows, in their original
relative order. -/
theorem C10_clean_frame (categoryCol salesCol dateCol c : String)
    (rows : List Row) (r : Row) (hs : c ≠ salesCol) (hd : c ≠ dateCol) :
    getCol (coerceRow salesCol dateCol r) c = getCol r c
    ∧ df_clean categoryCol salesCol dateCol rows
        = (rows.filter (fun r0 =>
            [categoryCol, salesCol, dateCol].all
              (fun c0 => !(isMissing (getCol (coerceRow salesCol dateCol r0) c0))))).map
            (coerceRow salesCol dateCol)
    ∧ (rows.filter (fun r0 =>
        [categoryCol, salesCol, dateCol].all
          (fun c0 => !(isMissing (getCol (coerceRow salesCol dateCol r0) c0))))).Sublist
        rows := by
  refine ⟨getCol_coerceRow_other salesCol dateCol c r hs hd, ?_, List.filter_sublist rows⟩
  unfold df_clean dropna coerceRows
  rw [List.filter_map]
  rfl

/-- C10 witness at a concrete dataset with an untouched column `X`. -/
theorem C10_clean_frame_witness :
    ("X" : String) ≠ "S" ∧ ("X" : String) ≠ "D"
    ∧ getCol (coerceRow "S" "D" [("X", Value.str "a"), ("S", Value.num 1), ("D", Value.dt 0)]) "X"
        = getCol [("X", Value.str "a"), ("S", Value.num 1), ("D", Value.dt 0)] "X" :=
  ⟨by decide, by decide,
    (C10_clean_frame "C" "S" "D" "X"
      [[("X", Value.str "a"), ("S", Value.num 1), ("D", Value.dt 0)]]
      [("X", Value.str "a"), ("S", Value.num 1), ("D", Value.dt 0)]
      (by decide) (by decide)).1⟩

/-- C6: numeric and temporal coercion are total (never raise) and handle
failure per value by substituting missing: every coercion result is a
well-formed number (resp. datetime) or missing, and the cleaning applies
exactly these per-value coercions to the sales- and date-bound columns. -/
theorem C6_coercion_per_value (v : Value) (salesCol dateCol : String) (r : Row)
    (hsd : salesCol ≠ dateCol) :
    ((∃ n, toNumeric v = .num n) ∨ toNumeric v = .missing)
    ∧ ((∃ t, toDatetime v = .dt t) ∨ toDatetime v = .missing)
    ∧ getCol (coerceRow salesCol dateCol r) salesCol = toNumeric (getCol r salesCol)
    ∧ getCol (coerceRow salesCol dateCol r) dateCol = toDatetime (getCol r dateCol) := by
  refine ⟨?_, ?_, getCol_coerceRow_sales salesCol dateCol r hsd,
    getCol_coerceRow_date salesCol dateCol r hsd⟩
  · cases v with
    | missing => exact Or.inr rfl
    | num n => exact Or.inl ⟨n, rfl⟩
    | dt t => exact Or.inl ⟨t, rfl⟩
    | str s =>
      rcases hp : parseInt s with _ | n
      · exact Or.inr (by simp [toNumeric, hp])
      · exact Or.inl ⟨n, by simp [toNumeric, hp]⟩
  · cases v with
    | missing => exact Or.inr rfl
    | num n => exact Or.inl ⟨n, rfl⟩
    | dt t => exact Or.inl ⟨t, rfl⟩
    | str s =>
      rcases hp : parseDate s with _ | t
      · exact Or.inr (by simp [toDatetime, hp])
      · exact Or.inl ⟨t * 86400, by simp [toDatetime, hp]⟩

/-- C6 witness at an unparseable string and a concrete row. -/
theorem C6_coercion_per_value_witness :
    ("S" : String) ≠ "D"
    ∧ (((∃ n, toNumeric (Value.str "abc") = .num n)
          ∨ toNumeric (Value.str "abc") = .missing)
       ∧ ((∃ t, toDatetime (Value.str "abc") = .dt t)
          ∨ toDatetime (Value.str "abc") = .missing)
       ∧ getCol (coerceRow "S" "D" [("S", Value.str "7"), ("D", Value.str "xyz")]) "S"
           = toNumeric (getCol [("S", Value.str "7"), ("D", Value.str "xyz")] "S")
       ∧ getCol (coerceRow "S" "D" [("S", Value.str "7"), ("D", Value.str "xyz")]) "D"
           = toDatetime (getCol [("S", Value.str "7"), ("D", Value.str "xyz")] "D")) :=
  ⟨by decide,
    C6_coercion_per_value (Value.str "abc") "S" "D"
      [("S", Value.str "7"), ("D", Value.str "xyz")] (by decide)⟩

/-- C7: for a non-empty column list, the default binding is the preferred
name when present, the first column otherwise, and always a member of the
list. -/
theorem C7_defaultBinding (colName : String) (cols : List String) (h : cols ≠ []) :
    (colName ∈ cols → defaultBinding colName cols = some colName)
    ∧ (colName ∉ cols → defaultBinding colName cols = some (cols.head h))
    ∧ ∀ c, defaultBinding colName cols = some c → c ∈ cols := by
  refine ⟨?_, ?_, ?_⟩
  · intro hmem
    unfold defaultBinding default_index
    rw [if_pos hmem]
    have hlt : cols.indexOf colName < cols.length := List.indexOf_lt_length.mpr hmem
    rw [List.get?_eq_getElem?, List.getElem?_eq_getElem hlt, List.getElem_indexOf hlt]
  · intro hmem
    unfold defaultBinding default_index
    rw [if_neg hmem]
    cases cols with
    | nil => exact absurd rfl h
    | cons a t => rfl
  · intro c hc
    unfold defaultBinding at hc
    exact List.get?_mem hc

/-- C7 witness: scenario 5 of the spec, a dataset without the preferred
`Category` column. -/
theorem C7_defaultBinding_witness :
    (["Type", "Sales"] : List String) ≠ []
    ∧ ("Category" : String) ∉ (["Type", "Sales"] : List String)
    ∧ defaultBinding "Category" ["Type", "Sales"] = some "Type" :=
  ⟨by decide, by decide,
    (C7_defaultBinding "Category" ["Type", "Sales"] (by decide)).2.1 (by decide)⟩

/-- C8: with more than one daily entry the trend is increased / decreased /
unchanged exactly as the last daily total compares with the first; with a
single distinct date the daily summary has one entry and no trend is
computed. -/
theorem C8_trend_classification (l : List (Int × Int))
    (dateCol salesCol : String) (rows : List Row) (d : Int) :
    (1 < l.length →
      (trendOf l = some Trend.increased ↔ (l.headD (0, 0)).2 < (l.getLastD (0, 0)).2)
      ∧ (trendOf l = some Trend.decreased ↔ (l.getLastD (0, 0)).2 < (l.headD (0, 0)).2)
      ∧ (trendOf l = some Trend.unchanged ↔ (l.getLastD (0, 0)).2 = (l.headD (0, 0)).2))
    ∧ (rows ≠ [] → (∀ r ∈ rows, dayOf (getCol r dateCol) = d) →
        (daily_sales dateCol salesCol rows).length = 1
        ∧ trendOf (daily_sales dateCol salesCol rows) = none) := by
  constructor
  · intro hlen
    unfold trendOf
    rw [if_pos hlen]
    generalize (l.headD (0, 0)).2 = a
    generalize (l.getLastD (0, 0)).2 = b
    rcases lt_trichotomy a b with h | h | h
    · simp [h, lt_asymm h, h.ne, h.ne']
    · simp [h, lt_irrefl]
    · simp [h, lt_asymm h, h.ne, h.ne']
  · intro hne hall
    have hlen1 := daily_sales_length_one dateCol salesCol rows d hne hall
    refine ⟨hlen1, trendOf_of_length_le_one _ ?_⟩
    rw [hlen1]
    decide

/-- C8 witness: scenario 2 of the spec (daily totals 30 then 5, trend
decreased) and a one-date dataset with a single summary entry. -/
theorem C8_trend_classification_witness :
    1 < ([((0 : Int), (30 : Int)), (1, 5)]).length
    ∧ trendOf [((0 : Int), (30 : Int)), (1, 5)] = some Trend.decreased
    ∧ (daily_sales "D" "S" [[("D", Value.dt 0)]]).length = 1 :=
  ⟨by decide,
    ((C8_trend_classification [((0 : Int), (30 : Int)), (1, 5)] "D" "S"
        [[("D", Value.dt 0)]] 0).1 (by decide)).2.1.mpr (by decide),
    ((C8_trend_classification [((0 : Int), (30 : Int)), (1, 5)] "D" "S"
        [[("D", Value.dt 0)]] 0).2 (by decide) (fun r hr => by
          rw [List.mem_singleton] at hr
          rw [hr]
          decide)).1⟩

/-- C4 counterexample: bind satisfaction to the same column as the date role.
The cleaning of lines 71-74 mutates `df` in place, so tab 3 counts the
coerced datetime (as its epoch offset) that numeric coercion of the raw
string would have dropped: the distribution differs from the raw dataset's
distribution and its counts do not sum to the raw numeric count. -/
theorem C4_rating_from_raw_counterexample :
    rating_counts "D" (coerceRows "S" "D"
        [[("S", Value.num 1), ("D", Value.str "1970-01-02")]])
      ≠ ratingDistribution_spec "D" [[("S", Value.num 1), ("D", Value.str "1970-01-02")]]
    ∧ ((rating_counts "D" (coerceRows "S" "D"
          [[("S", Value.num 1), ("D", Value.str "1970-01-02")]])).map Prod.snd).sum
      ≠ numericCount "D" [[("S", Value.num 1), ("D", Value.str "1970-01-02")]] := by
  decide

/-- C4 (amended): provided the satisfaction-bound column differs from the
sales- and date-bound columns, the rating distribution the program computes
equals the one of the original (uncleaned) dataset's satisfaction column,
is sorted ascending by rating value, and its counts sum to the number of
numeric, non-missing satisfaction values of the raw dataset. -/
theorem C4_rating_distribution_amended
    (salesCol dateCol satisfactionCol : String) (rows : List Row)
    (hs : satisfactionCol ≠ salesCol) (hd : satisfactionCol ≠ dateCol) :
    rating_counts satisfactionCol (coerceRows salesCol dateCol rows)
      = ratingDistribution_spec satisfactionCol rows
    ∧ List.Sorted ascByFst
        (rating_counts satisfactionCol (coerceRows salesCol dateCol rows))
    ∧ ((rating_counts satisfactionCol (coerceRows salesCol dateCol rows)).map
        Prod.snd).sum = numericCount satisfactionCol rows := by
  have heq : rating_counts satisfactionCol (coerceRows salesCol dateCol rows)
      = rating_counts satisfactionCol rows :=
    rating_counts_eq_of_satValues_eq _ _ _ _
      (satValues_coerceRows salesCol dateCol satisfactionCol rows hs hd)
  refine ⟨heq, ?_, ?_⟩
  · rw [heq]
    exact rating_counts_sorted satisfactionCol rows
  · rw [heq]
    exact rating_counts_snd_sum satisfactionCol rows

/-- C4 witness: a disjoint satisfaction binding at a concrete dataset. -/
theorem C4_rating_distribution_amended_witness :
    ("R" : String) ≠ "S" ∧ ("R" : String) ≠ "D"
    ∧ rating_counts "R" (coerceRows "S" "D" [[("R", Value.num 5)]])
        = ratingDistribution_spec "R" [[("R", Value.num 5)]] :=
  ⟨by decide, by decide,
    (C4_rating_distribution_amended "S" "D" "R" [[("R", Value.num 5)]]
      (by decide) (by decide)).1⟩

/-- C5: at a dataset whose satisfaction-bound column holds one non-numeric
string, the rating aggregator itself returns a well-formed empty
distribution, but the consumer raises: the guard of line 182 tests
emptiness before the numeric coercion of line 185, so
`rating_counts.idxmax()` at line 201 runs on an empty series and raises
`ValueError` instead of rendering a no-data state.  (On an empty cleaned
row set the other two tabs do render their no-data state.) -/
theorem C5_empty_path_valueerror :
    rating_counts "R" (coerceRows "S" "D" [[("R", Value.str "bad")]]) = []
    ∧ tab3_program "S" "D" "R" [[("R", Value.str "bad")]]
        = Tab3Result.raisedValueError
    ∧ category_sales "C" "S" (df_clean "C" "S" "D" ([] : List Row)) = []
    ∧ daily_sales "D" "S"
        (time_df "D" "S" (df_clean "C" "S" "D" ([] : List Row))) = []
    ∧ tab1 "C" "S" (df_clean "C" "S" "D" ([] : List Row)) = Tab1Result.noData
    ∧ tab2 "D" "S" (df_clean "C" "S" "D" ([] : List Row)) = Tab2Result.noData := by
  decide
